import Mathlib

/-!
Verification of the record query engine of the plaque/vehicle registration
system: the listing endpoint (pagination, search, status filter), the
statistics endpoint, the creation endpoint's duplicate-plate check, and the
two update endpoints (the full update with its plate-conflict pre-check and
the dynamic partial update used by the vehicles route).

The embedding mirrors the Express route handlers over the `plaques` table
(`plate_number` is declared UNIQUE in the schema).  The SQLite store is
modelled as a list of rows; timestamps and dates are day numbers (`Nat`);
each operation returns the handler's error outcome together with the table
contents after the request, so "the store is left unchanged" is a statement
about the operation's output.
-/

namespace PlaqueSystem

/-- A row of the `plaques` table (see `initializeTables` in
`backend/database/database.js`): `plate_number` is UNIQUE NOT NULL,
`owner_phone` is nullable, `expiry_date` is NOT NULL, `status` defaults to
`active`.  Dates and timestamps are modelled as day numbers. -/
structure Record where
  id : Nat
  plate_number : String
  owner_name : String
  owner_email : String
  owner_phone : Option String
  registration_date : Nat
  expiry_date : Nat
  status : String
  created_by : Nat
  created_at : Nat
  updated_at : Nat
deriving DecidableEq

/-- The error taxonomy of the route handlers: 400 validation, 404 not found,
400 duplicate-plate conflict, and 500 for a failed store round trip. -/
inductive ApiError where
  | validation
  | notFound
  | conflict
  | server
deriving DecidableEq

/-- Substring test on character lists: does `needle` occur contiguously
inside `hay`?  This is the list-level core of the SQL `LIKE '%needle%'`
pattern produced by the search clause. -/
def hasInfix : List Char → List Char → Bool
  | needle, [] => needle.isEmpty
  | needle, c :: rest => needle.isPrefixOf (c :: rest) || hasInfix needle rest

/-- SQLite `column LIKE '%pat%'` matching: substring containment that is
case-insensitive on ASCII letters (SQLite's default LIKE behaviour). -/
def likeContains (pat s : String) : Bool :=
  hasInfix (pat.data.map Char.toLower) (s.data.map Char.toLower)

/-- The search clause of `GET /api/plaques`:
`(plate_number LIKE ? OR owner_name LIKE ? OR owner_email LIKE ?)` with the
same `%search%` parameter three times. -/
def searchMatch (search : String) (r : Record) : Bool :=
  likeContains search r.plate_number || likeContains search r.owner_name ||
    likeContains search r.owner_email

/-- The combined WHERE clause of the listing handler: the search clause is
added only when `search` is a non-empty string (JavaScript truthiness), the
`status = ?` clause only when `status` is non-empty, and the two are
conjoined. -/
def rowMatch (search st : String) (r : Record) : Bool :=
  (search == "" || searchMatch search r) && (st == "" || r.status == st)

/-- Insert a row into a list that is already ordered by `created_at`
descending, keeping the order (rows with equal `created_at` keep their
relative order). -/
def insertByCreatedDesc (r : Record) : List Record → List Record
  | [] => [r]
  | x :: xs =>
    if x.created_at < r.created_at then r :: x :: xs
    else x :: insertByCreatedDesc r xs

/-- `ORDER BY created_at DESC` of the listing query. -/
def orderByCreatedDesc (db : List Record) : List Record :=
  db.foldr insertByCreatedDesc []

/-- `Math.ceil(total / limit)` as computed for the `totalPages` field of the
pagination metadata (exact for every positive `limit`). -/
def jsCeil (a b : Nat) : Nat :=
  if a % b = 0 then a / b else a / b + 1

/-- The `pagination` object of the listing response. -/
structure Pagination where
  page : Nat
  limit : Nat
  total : Nat
  totalPages : Nat
deriving DecidableEq

/-- The JSON body of a successful `GET /api/plaques` response. -/
structure ListResponse where
  plaques : List Record
  pagination : Pagination
deriving DecidableEq

/-- `GET /api/plaques` (`listRecords`): filter by the WHERE clause, count the
matches for the pagination metadata, order by `created_at DESC`, and return
the rows `LIMIT limit OFFSET (page-1)*limit`. -/
def listPlaques (db : List Record) (page limit : Nat) (search st : String) :
    ListResponse :=
  let matching := db.filter (rowMatch search st)
  let total := matching.length
  let ordered := orderByCreatedDesc matching
  let offset := (page - 1) * limit
  { plaques := (ordered.drop offset).take limit
    pagination :=
      { page := page, limit := limit, total := total
        totalPages := jsCeil total limit } }

/-- The body of `POST /api/plaques`: `plateNumber`, `ownerName`, `ownerEmail`
are required (empty means missing), `ownerPhone` and `expiryDate` optional. -/
structure CreateReq where
  plateNumber : String
  ownerName : String
  ownerEmail : String
  ownerPhone : Option String
  expiryDate : Option Nat
deriving DecidableEq

/-- `AUTOINCREMENT` id for an insert: one more than the largest id used. -/
def nextId (db : List Record) : Nat :=
  db.foldr (fun r m => max r.id m) 0 + 1

/-- `POST /api/plaques` (create): reject missing required fields with a
validation error; reject an already-used `plate_number` with a conflict
error before inserting; otherwise insert a new row with status `active`,
`registration_date` now and a one-year default expiry. -/
def createPlaque (db : List Record) (uid now : Nat) (req : CreateReq) :
    Option ApiError × List Record :=
  if req.plateNumber == "" || req.ownerName == "" || req.ownerEmail == "" then
    (some ApiError.validation, db)
  else if db.any (fun r => r.plate_number == req.plateNumber) then
    (some ApiError.conflict, db)
  else
    (none, db ++ [{
      id := nextId db
      plate_number := req.plateNumber
      owner_name := req.ownerName
      owner_email := req.ownerEmail
      owner_phone := req.ownerPhone
      registration_date := now
      expiry_date := req.expiryDate.getD (now + 365)
      status := "active"
      created_by := uid
      created_at := now
      updated_at := now }])

/-- A sequence of create requests run against the store in order, each with
its caller id and request time. -/
def runCreates (db : List Record) (ops : List (Nat × Nat × CreateReq)) :
    List Record :=
  ops.foldl (fun d op => (createPlaque d op.1 op.2.1 op.2.2).2) db

/-- The body of `PUT /api/plaques/:id` (plaque variant): `plateNumber`,
`ownerName`, `ownerEmail` required, `ownerPhone` and `expiryDate` taken
as given (an absent `expiryDate` becomes SQL NULL). -/
structure UpdateReq where
  plateNumber : String
  ownerName : String
  ownerEmail : String
  ownerPhone : Option String
  expiryDate : Option Nat
deriving DecidableEq

/-- `PUT /api/plaques/:id` (full update): validation of required fields, 404
when no row has the id, then — only when the new plate differs from the
row's current plate — a conflict pre-check against any other row using the
plate; the write overwrites the five columns of the UPDATE statement.  An
absent `expiryDate` would write NULL into the NOT NULL `expiry_date`
column, which the store rejects (a 500 server error). -/
def updatePlaque (db : List Record) (id : Nat) (req : UpdateReq) :
    Option ApiError × List Record :=
  if req.plateNumber == "" || req.ownerName == "" || req.ownerEmail == "" then
    (some ApiError.validation, db)
  else
    match db.find? (fun r => r.id == id) with
    | none => (some ApiError.notFound, db)
    | some existing =>
      if req.plateNumber != existing.plate_number &&
          db.any (fun r => r.plate_number == req.plateNumber && r.id != id) then
        (some ApiError.conflict, db)
      else
        match req.expiryDate with
        | none => (some ApiError.server, db)
        | some d =>
          (none, db.map (fun r =>
            if r.id == id then
              { r with
                plate_number := req.plateNumber
                owner_name := req.ownerName
                owner_email := req.ownerEmail
                owner_phone := req.ownerPhone
                expiry_date := d }
            else r))

/-- The field map of the dynamic partial update (`PUT /api/vehicles/:id`):
a key absent from the request body (`undefined` in JavaScript) is `none`
and contributes no `column = ?` fragment, restricted to the updatable
columns of the Record. -/
structure UpdateFields where
  plateNumber : Option String := none
  ownerName : Option String := none
  ownerEmail : Option String := none
  ownerPhone : Option String := none
  expiryDate : Option Nat := none
  status : Option String := none
deriving DecidableEq

/-- `fields.length === 0`: no key of the body survived the undefined
check, so the dynamic UPDATE would have nothing to set. -/
def UpdateFields.isEmptyMap (f : UpdateFields) : Bool :=
  f.plateNumber.isNone && f.ownerName.isNone && f.ownerEmail.isNone &&
    f.ownerPhone.isNone && f.expiryDate.isNone && f.status.isNone

/-- Apply the supplied `column = ?` assignments of the dynamic UPDATE to one
row, together with the `updated_at = CURRENT_TIMESTAMP` stamp the handler
always appends. -/
def applyFields (r : Record) (f : UpdateFields) (now : Nat) : Record :=
  { r with
    plate_number := f.plateNumber.getD r.plate_number
    owner_name := f.ownerName.getD r.owner_name
    owner_email := f.ownerEmail.getD r.owner_email
    owner_phone :=
      match f.ownerPhone with
      | some v => some v
      | none => r.owner_phone
    expiry_date := f.expiryDate.getD r.expiry_date
    status := f.status.getD r.status
    updated_at := now }

/-- `applyPartialUpdate` — the dynamic update builder of the PUT handler:
404 when the id matches no row (checked first), then a validation error
when the field map is empty, otherwise update only the supplied columns of
the matching row and stamp `updated_at`. -/
def applyPartialUpdate (db : List Record) (id : Nat) (f : UpdateFields)
    (now : Nat) : Option ApiError × List Record :=
  match db.find? (fun r => r.id == id) with
  | none => (some ApiError.notFound, db)
  | some _ =>
    if f.isEmptyMap then (some ApiError.validation, db)
    else (none, db.map (fun r => if r.id == id then applyFields r f now else r))

/-- The JSON body of `GET /api/plaques/stats/overview`. -/
structure Stats where
  total : Nat
  active : Nat
  expired : Nat
  suspended : Nat
  expiring_soon : Nat
deriving DecidableEq

/-- The `expiring_soon` CASE of the statistics query:
`status = 'active' AND date(expiry_date) <= date('now', '+30 days')`. -/
def isExpiringSoon (now : Nat) (r : Record) : Bool :=
  r.status == "active" && decide (r.expiry_date ≤ now + 30)

/-- `GET /api/plaques/stats/overview` (`getStatistics`): one aggregate query
counting all rows, the rows of each status, and the active rows expiring
within 30 days of the current date. -/
def getStatistics (db : List Record) (now : Nat) : Stats :=
  { total := db.length
    active := db.countP (fun r => r.status == "active")
    expired := db.countP (fun r => r.status == "expired")
    suspended := db.countP (fun r => r.status == "suspended")
    expiring_soon := db.countP (fun r => isExpiringSoon now r) }

/-- The UNIQUE constraint on `plate_number`: no two rows share a plate. -/
def PlatesUnique (db : List Record) : Prop :=
  db.Pairwise (fun a b => a.plate_number ≠ b.plate_number)

/-- The PRIMARY KEY constraint on `id`: no two rows share an id. -/
def IdsUnique (db : List Record) : Prop :=
  db.Pairwise (fun a b => a.id ≠ b.id)

instance (db : List Record) : Decidable (PlatesUnique db) :=
  List.instDecidablePairwise db

instance (db : List Record) : Decidable (IdsUnique db) :=
  List.instDecidablePairwise db

/-- A concrete row used to instantiate the theorems on explicit inputs. -/
def sampleRecord (i ca expiry : Nat) (pl nm em st : String) : Record :=
  { id := i, plate_number := pl, owner_name := nm, owner_email := em,
    owner_phone := none, registration_date := 0, expiry_date := expiry,
    status := st, created_by := 1, created_at := ca, updated_at := ca }

/-! ### Helper lemmas about the embedded operations -/

theorem hasInfix_complete {n h : List Char} (hi : n <:+: h) :
    hasInfix n h = true := by
  induction h with
  | nil =>
    rw [ List.infix_nil] at hi
    subst hi
    rfl
  | cons c rest ih =>
    rcases List.infix_cons_iff.mp hi with hp | ht
    · simp [hasInfix, List.isPrefixOf_iff_prefix, hp]
    · simp [hasInfix, ih ht]

theorem likeContains_complete {pat s : String}
    (hi : pat.data <:+: s.data) : likeContains pat s = true :=
  hasInfix_complete (List.IsInfix.map Char.toLower hi)

theorem length_insertByCreatedDesc (r : Record) (l : List Record) :
    (insertByCreatedDesc r l).length = l.length + 1 := by
  induction l with
  | nil => rfl
  | cons x xs ih =>
    simp only [insertByCreatedDesc]
    split <;> simp [ih]

theorem length_orderByCreatedDesc (l : List Record) :
    (orderByCreatedDesc l).length = l.length := by
  induction l with
  | nil => rfl
  | cons x xs ih =>
    show (insertByCreatedDesc x (orderByCreatedDesc xs)).length = xs.length + 1
    rw [length_insertByCreatedDesc, ih]

theorem mem_insertByCreatedDesc {a r : Record} {l : List Record} :
    a ∈ insertByCreatedDesc r l ↔ a = r ∨ a ∈ l := by
  induction l with
  | nil => simp [insertByCreatedDesc]
  | cons x xs ih =>
    simp only [insertByCreatedDesc]
    split
    · simp
    · simp [ih]
      tauto

theorem mem_orderByCreatedDesc {a : Record} {l : List Record} :
    a ∈ orderByCreatedDesc l ↔ a ∈ l := by
  induction l with
  | nil => simp [orderByCreatedDesc]
  | cons x xs ih =>
    show a ∈ insertByCreatedDesc x (orderByCreatedDesc xs) ↔ _
    rw [mem_insertByCreatedDesc, ih]
    simp

theorem jsCeil_eq_ceil (a b : ℕ) (hb : 0 < b) :
    jsCeil a b = ⌈(a : ℚ) / (b : ℚ)⌉₊ := by
  unfold jsCeil
  have hb' : (0 : ℚ) < (b : ℚ) := by exact_mod_cast hb
  have hdm : a % b + a / b * b = a := Nat.mod_add_div' a b
  have hmod : a % b < b := Nat.mod_lt _ hb
  by_cases h : a % b = 0
  · simp only [h, if_true]
    have hstep : a / b * b = a := by omega
    have heq : (a : ℚ) / b = ((a / b : ℕ) : ℚ) := by
      rw [div_eq_iff (ne_of_gt hb')]
      exact_mod_cast hstep.symm
    rw [heq, Nat.ceil_natCast]
  · simp only [h, if_false]
    refine ((@Nat.ceil_eq_iff ℚ _ _ ((a : ℚ) / (b : ℚ)) (a / b + 1)
      (Nat.succ_ne_zero _)).mpr ⟨?_, ?_⟩).symm
    · have hcast : ((a / b + 1 - 1 : ℕ) : ℚ) = ((a / b : ℕ) : ℚ) := by norm_num
      rw [hcast, lt_div_iff₀ hb']
      have hlt : (a / b) * b < a := by omega
      exact_mod_cast hlt
    · rw [div_le_iff₀ hb']
      have hexp : (a / b + 1) * b = a / b * b + b := by ring
      have hle : a ≤ (a / b + 1) * b := by omega
      exact_mod_cast hle

theorem platesUnique_createPlaque (db : List Record) (uid now : Nat)
    (req : CreateReq) (h : PlatesUnique db) :
    PlatesUnique (createPlaque db uid now req).2 := by
  unfold createPlaque
  split
  · exact h
  · split
    · exact h
    · rename_i hany
      refine List.pairwise_append.mpr ⟨h, by simp [PlatesUnique], ?_⟩
      intro a ha b hb
      simp only [List.mem_singleton] at hb
      subst hb
      intro heq
      exact hany (List.any_eq_true.mpr ⟨a, ha, by simpa using heq⟩)

theorem countP_status_partition (db : List Record) :
    (∀ r ∈ db, r.status = "active" ∨ r.status = "expired" ∨
      r.status = "suspended") →
    db.countP (fun r => r.status == "active") +
      db.countP (fun r => r.status == "expired") +
      db.countP (fun r => r.status == "suspended") = db.length := by
  induction db with
  | nil => intro _; rfl
  | cons r rest ih =>
    intro h
    have hr := h r (List.mem_cons_self r rest)
    have ih' := ih (fun x hx => h x (List.mem_cons_of_mem r hx))
    simp only [List.countP_cons, List.length_cons]
    rcases hr with h1 | h1 | h1 <;> simp [h1] <;> omega

/-! ### The claims -/

/-- C1: a creation request whose `plateNumber` is already used by an existing
record fails with a Conflict error and inserts nothing, and consequently
`plate_number` uniqueness (case-sensitive string equality) is preserved by
every sequence of create operations started from a store satisfying the
uniqueness invariant. -/
theorem create_duplicate_plate_conflict :
    (∀ (db : List Record) (uid now : Nat) (req : CreateReq),
        req.plateNumber ≠ "" → req.ownerName ≠ "" → req.ownerEmail ≠ "" →
        (∃ r ∈ db, r.plate_number = req.plateNumber) →
        createPlaque db uid now req = (some ApiError.conflict, db)) ∧
    (∀ (db : List Record) (ops : List (Nat × Nat × CreateReq)),
        PlatesUnique db → PlatesUnique (runCreates db ops)) := by
  constructor
  · intro db uid now req h1 h2 h3 hdup
    obtain ⟨r, hr, hpl⟩ := hdup
    unfold createPlaque
    rw [if_neg (by simp [h1, h2, h3]),
      if_pos (List.any_eq_true.mpr ⟨r, hr, by simpa using hpl⟩)]
  · intro db ops h
    induction ops generalizing db with
    | nil => exact h
    | cons op rest ih => exact ih _ (platesUnique_createPlaque _ _ _ _ h)

theorem create_duplicate_plate_conflict_witness :
    createPlaque [sampleRecord 1 5 400 "ABC123" "Alice" "alice@x.cd" "active"]
        2 7 { plateNumber := "ABC123", ownerName := "Bob",
              ownerEmail := "bob@x.cd", ownerPhone := none,
              expiryDate := none } =
      (some ApiError.conflict,
        [sampleRecord 1 5 400 "ABC123" "Alice" "alice@x.cd" "active"]) ∧
    PlatesUnique (runCreates []
      [(2, 7, { plateNumber := "ABC123", ownerName := "Bob",
                ownerEmail := "bob@x.cd", ownerPhone := none,
                expiryDate := none })]) :=
  ⟨create_duplicate_plate_conflict.1
      [sampleRecord 1 5 400 "ABC123" "Alice" "alice@x.cd" "active"] 2 7
      { plateNumber := "ABC123", ownerName := "Bob", ownerEmail := "bob@x.cd",
        ownerPhone := none, expiryDate := none }
      (by decide) (by decide) (by decide)
      ⟨sampleRecord 1 5 400 "ABC123" "Alice" "alice@x.cd" "active",
        by decide, by decide⟩,
    create_duplicate_plate_conflict.2 []
      [(2, 7, { plateNumber := "ABC123", ownerName := "Bob",
                ownerEmail := "bob@x.cd", ownerPhone := none,
                expiryDate := none })]
      (by decide)⟩

/-- C5: when every record's status is one of `active`, `expired`,
`suspended`, the statistics satisfy `active + expired + suspended = total`. -/
theorem stats_status_partition (db : List Record) (now : Nat)
    (h : ∀ r ∈ db, r.status = "active" ∨ r.status = "expired" ∨
      r.status = "suspended") :
    (getStatistics db now).active + (getStatistics db now).expired +
      (getStatistics db now).suspended = (getStatistics db now).total :=
  countP_status_partition db h

theorem stats_status_partition_witness :
    (getStatistics [sampleRecord 1 5 400 "A1" "Al" "a@x.cd" "active",
        sampleRecord 2 6 100 "B2" "Bo" "b@x.cd" "expired",
        sampleRecord 3 7 500 "C3" "Cy" "c@x.cd" "suspended"] 90).active +
      (getStatistics [sampleRecord 1 5 400 "A1" "Al" "a@x.cd" "active",
        sampleRecord 2 6 100 "B2" "Bo" "b@x.cd" "expired",
        sampleRecord 3 7 500 "C3" "Cy" "c@x.cd" "suspended"] 90).expired +
      (getStatistics [sampleRecord 1 5 400 "A1" "Al" "a@x.cd" "active",
        sampleRecord 2 6 100 "B2" "Bo" "b@x.cd" "expired",
        sampleRecord 3 7 500 "C3" "Cy" "c@x.cd" "suspended"] 90).suspended =
      (getStatistics [sampleRecord 1 5 400 "A1" "Al" "a@x.cd" "active",
        sampleRecord 2 6 100 "B2" "Bo" "b@x.cd" "expired",
        sampleRecord 3 7 500 "C3" "Cy" "c@x.cd" "suspended"] 90).total :=
  stats_status_partition
    [sampleRecord 1 5 400 "A1" "Al" "a@x.cd" "active",
      sampleRecord 2 6 100 "B2" "Bo" "b@x.cd" "expired",
      sampleRecord 3 7 500 "C3" "Cy" "c@x.cd" "suspended"] 90 (by decide)

/-- C6: an active record whose expiry date is exactly 30 days after the
current date is counted in `expiring_soon`, one 29 days out is counted,
and one 31 days out is not. -/
theorem expiring_soon_thirty_day_boundary (now : Nat) (r : Record)
    (hact : r.status = "active") :
    isExpiringSoon now { r with expiry_date := now + 30 } = true ∧
    isExpiringSoon now { r with expiry_date := now + 29 } = true ∧
    isExpiringSoon now { r with expiry_date := now + 31 } = false ∧
    (getStatistics [{ r with expiry_date := now + 30 }] now).expiring_soon = 1 ∧
    (getStatistics [{ r with expiry_date := now + 29 }] now).expiring_soon = 1 ∧
    (getStatistics [{ r with expiry_date := now + 31 }] now).expiring_soon = 0 := by
  refine ⟨?_, ?_, ?_, ?_, ?_, ?_⟩ <;>
    simp [isExpiringSoon, getStatistics, List.countP_cons, hact]

theorem expiring_soon_thirty_day_boundary_witness :
    isExpiringSoon 100
      { sampleRecord 1 5 0 "A1" "Al" "a@x.cd" "active" with
        expiry_date := 100 + 30 } = true ∧
    isExpiringSoon 100
      { sampleRecord 1 5 0 "A1" "Al" "a@x.cd" "active" with
        expiry_date := 100 + 29 } = true ∧
    isExpiringSoon 100
      { sampleRecord 1 5 0 "A1" "Al" "a@x.cd" "active" with
        expiry_date := 100 + 31 } = false ∧
    (getStatistics [{ sampleRecord 1 5 0 "A1" "Al" "a@x.cd" "active" with
        expiry_date := 100 + 30 }] 100).expiring_soon = 1 ∧
    (getStatistics [{ sampleRecord 1 5 0 "A1" "Al" "a@x.cd" "active" with
        expiry_date := 100 + 29 }] 100).expiring_soon = 1 ∧
    (getStatistics [{ sampleRecord 1 5 0 "A1" "Al" "a@x.cd" "active" with
        expiry_date := 100 + 31 }] 100).expiring_soon = 0 :=
  expiring_soon_thirty_day_boundary 100
    (sampleRecord 1 5 0 "A1" "Al" "a@x.cd" "active") (by decide)

/-- C8: the partial update applied to an existing record with an empty field
map fails with a validation error and leaves the store — the record and its
`updated_at` timestamp included — unchanged. -/
theorem partial_update_empty_fields (db : List Record) (id now : Nat)
    (hex : ∃ r ∈ db, r.id = id) :
    applyPartialUpdate db id {} now = (some ApiError.validation, db) := by
  obtain ⟨r, hr, hid⟩ := hex
  have hsome : (db.find? (fun x => x.id == id)).isSome :=
    List.find?_isSome.mpr ⟨r, hr, by simpa using hid⟩
  obtain ⟨r0, hr0⟩ := Option.isSome_iff_exists.mp hsome
  unfold applyPartialUpdate
  rw [hr0]
  rfl

theorem partial_update_empty_fields_witness :
    applyPartialUpdate [sampleRecord 1 5 400 "A1" "Al" "a@x.cd" "active"]
        1 {} 99 =
      (some ApiError.validation,
        [sampleRecord 1 5 400 "A1" "Al" "a@x.cd" "active"]) :=
  partial_update_empty_fields
    [sampleRecord 1 5 400 "A1" "Al" "a@x.cd" "active"] 1 99
    ⟨sampleRecord 1 5 400 "A1" "Al" "a@x.cd" "active", by decide, by decide⟩

/-- C9: the partial update supplying only `status` succeeds, sets the
matching record's status and `updated_at`, and leaves `plate_number`,
`owner_name`, `owner_email`, `owner_phone`, `expiry_date`,
`registration_date`, `created_by`, `created_at` and every other record
untouched. -/
theorem partial_update_status_only (db : List Record) (id now : Nat)
    (v : String) (hex : ∃ r ∈ db, r.id = id) :
    applyPartialUpdate db id { status := some v } now =
      (none, db.map (fun x =>
        if x.id = id then { x with status := v, updated_at := now } else x)) := by
  obtain ⟨r, hr, hid⟩ := hex
  have hsome : (db.find? (fun x => x.id == id)).isSome :=
    List.find?_isSome.mpr ⟨r, hr, by simpa using hid⟩
  obtain ⟨r0, hr0⟩ := Option.isSome_iff_exists.mp hsome
  unfold applyPartialUpdate
  rw [hr0]
  show (none, db.map _) = (none, db.map _)
  refine congrArg (Prod.mk none) (List.map_congr_left ?_)
  intro x _
  rcases eq_or_ne x.id id with hx | hx
  · rw [if_pos (by simpa using hx), if_pos hx]
    rfl
  · rw [if_neg (by simpa using hx), if_neg hx]

theorem partial_update_status_only_witness :
    applyPartialUpdate
        [sampleRecord 1 5 400 "A1" "Al" "a@x.cd" "active",
          sampleRecord 2 6 300 "B2" "Bo" "b@x.cd" "active"]
        2 { status := some "suspended" } 77 =
      (none,
        [sampleRecord 1 5 400 "A1" "Al" "a@x.cd" "active",
          sampleRecord 2 6 300 "B2" "Bo" "b@x.cd" "active"].map (fun x =>
          if x.id = 2 then { x with status := "suspended", updated_at := 77 }
          else x)) :=
  partial_update_status_only
    [sampleRecord 1 5 400 "A1" "Al" "a@x.cd" "active",
      sampleRecord 2 6 300 "B2" "Bo" "b@x.cd" "active"] 2 77 "suspended"
    ⟨sampleRecord 2 6 300 "B2" "Bo" "b@x.cd" "active", by decide, by decide⟩

/-- C7 counterexample: with one active record in the store, listing with the
malformed status value `actif` returns total 0 and no records, while
listing with no status parameter returns total 1 — so a malformed status is
not treated as if the parameter were absent. -/
theorem status_filter_malformed_counterexample :
    ¬ ((listPlaques [sampleRecord 1 5 400 "AAA111" "Al" "al@x.cd" "active"]
          1 10 "" "actif").pagination.total =
        (listPlaques [sampleRecord 1 5 400 "AAA111" "Al" "al@x.cd" "active"]
          1 10 "" "").pagination.total ∧
      (listPlaques [sampleRecord 1 5 400 "AAA111" "Al" "al@x.cd" "active"]
          1 10 "" "actif").plaques =
        (listPlaques [sampleRecord 1 5 400 "AAA111" "Al" "al@x.cd" "active"]
          1 10 "" "").plaques) := by
  decide

/-- C7 amended: a non-empty status value outside the enum is not rejected;
it is passed through as an exact-match filter, so when no stored record
carries it the listing succeeds with zero records and total 0 (only an
empty/absent status parameter disables the filter). -/
theorem status_filter_malformed_applied (db : List Record) (page limit : Nat)
    (search s : String) (hs : s ≠ "")
    (hnone : ∀ r ∈ db, r.status ≠ s) :
    (listPlaques db page limit search s).plaques = [] ∧
    (listPlaques db page limit search s).pagination.total = 0 := by
  have hfil : db.filter (rowMatch search s) = [] := by
    rw [ List.filter_eq_nil_iff]
    intro r hr
    simp [rowMatch, hs, hnone r hr]
  constructor
  · simp [listPlaques, hfil, orderByCreatedDesc]
  · simp [listPlaques, hfil]

theorem status_filter_malformed_applied_witness :
    (listPlaques [sampleRecord 1 5 400 "AAA111" "Al" "al@x.cd" "active"]
        1 10 "" "suspendedd").plaques = [] ∧
    (listPlaques [sampleRecord 1 5 400 "AAA111" "Al" "al@x.cd" "active"]
        1 10 "" "suspendedd").pagination.total = 0 :=
  status_filter_malformed_applied
    [sampleRecord 1 5 400 "AAA111" "Al" "al@x.cd" "active"] 1 10 ""
    "suspendedd" (by decide) (by decide)

/-- C10: the pagination metadata satisfies
`totalPages = ceil(total / limit)`, and in particular `totalPages = 0` when
`total = 0`. -/
theorem totalPages_eq_ceil (db : List Record) (page limit : Nat)
    (search st : String) (hl : 1 ≤ limit) :
    (listPlaques db page limit search st).pagination.totalPages =
      ⌈((listPlaques db page limit search st).pagination.total : ℚ) /
        (limit : ℚ)⌉₊ ∧
    ((listPlaques db page limit search st).pagination.total = 0 →
      (listPlaques db page limit search st).pagination.totalPages = 0) := by
  have h1 : (listPlaques db page limit search st).pagination.totalPages =
      jsCeil (listPlaques db page limit search st).pagination.total limit :=
    rfl
  constructor
  · rw [h1, jsCeil_eq_ceil _ _ hl]
  · intro h0
    rw [h1, h0]
    simp [jsCeil]

theorem totalPages_eq_ceil_witness :
    (listPlaques [sampleRecord 1 5 400 "A1" "Al" "a@x.cd" "active"]
        1 10 "" "").pagination.totalPages =
      ⌈((listPlaques [sampleRecord 1 5 400 "A1" "Al" "a@x.cd" "active"]
          1 10 "" "").pagination.total : ℚ) / (10 : ℚ)⌉₊ ∧
    ((listPlaques [sampleRecord 1 5 400 "A1" "Al" "a@x.cd" "active"]
        1 10 "" "").pagination.total = 0 →
      (listPlaques [sampleRecord 1 5 400 "A1" "Al" "a@x.cd" "active"]
        1 10 "" "").pagination.totalPages = 0) :=
  totalPages_eq_ceil [sampleRecord 1 5 400 "A1" "Al" "a@x.cd" "active"]
    1 10 "" "" (by decide)

/-- C2: for `page ≥ 1` and `limit ≥ 1` the listing returns exactly
`min(limit, max(0, total - (page-1)*limit))` records, and the returned
slice starts at offset `(page-1)*limit` of the filtered, ordered
sequence. -/
theorem listRecords_page_slice (db : List Record) (page limit : Nat)
    (search st : String) (hp : 1 ≤ page) (hl : 1 ≤ limit) :
    (((listPlaques db page limit search st).plaques.length : ℤ) =
      min (limit : ℤ) (max 0
        (((listPlaques db page limit search st).pagination.total : ℤ) -
          ((page : ℤ) - 1) * (limit : ℤ)))) ∧
    ∀ i : ℕ, i < limit →
      (listPlaques db page limit search st).plaques[i]? =
        (orderByCreatedDesc
          (db.filter (rowMatch search st)))[(page - 1) * limit + i]? := by
  constructor
  · have hlen : (listPlaques db page limit search st).plaques.length =
        min limit
          ((db.filter (rowMatch search st)).length - (page - 1) * limit) := by
      show (((orderByCreatedDesc (db.filter (rowMatch search st))).drop
          ((page - 1) * limit)).take limit).length = _
      rw [List.length_take, List.length_drop, length_orderByCreatedDesc]
    have htot : (listPlaques db page limit search st).pagination.total =
        (db.filter (rowMatch search st)).length := rfl
    have hc : (((page - 1) * limit : ℕ) : ℤ) =
        ((page : ℤ) - 1) * (limit : ℤ) := by
      push_cast [Nat.cast_sub hp]
      ring
    rw [hlen, htot, ← hc]
    generalize (page - 1) * limit = o
    generalize (db.filter (rowMatch search st)).length = t
    omega
  · intro i hi
    show ((((orderByCreatedDesc (db.filter (rowMatch search st))).drop
        ((page - 1) * limit)).take limit))[i]? = _
    rw [List.getElem?_take, if_pos hi, List.getElem?_drop]

theorem listRecords_page_slice_witness :
    (((listPlaques [sampleRecord 1 5 400 "A1" "Al" "a@x.cd" "active",
          sampleRecord 2 6 300 "B2" "Bo" "b@x.cd" "active",
          sampleRecord 3 7 500 "C3" "Cy" "c@x.cd" "expired"]
        2 2 "" "").plaques.length : ℤ) =
      min (2 : ℤ) (max 0
        (((listPlaques [sampleRecord 1 5 400 "A1" "Al" "a@x.cd" "active",
            sampleRecord 2 6 300 "B2" "Bo" "b@x.cd" "active",
            sampleRecord 3 7 500 "C3" "Cy" "c@x.cd" "expired"]
          2 2 "" "").pagination.total : ℤ) - ((2 : ℤ) - 1) * (2 : ℤ)))) ∧
    (listPlaques [sampleRecord 1 5 400 "A1" "Al" "a@x.cd" "active",
        sampleRecord 2 6 300 "B2" "Bo" "b@x.cd" "active",
        sampleRecord 3 7 500 "C3" "Cy" "c@x.cd" "expired"]
      2 2 "" "").plaques[0]? =
      (orderByCreatedDesc
        ([sampleRecord 1 5 400 "A1" "Al" "a@x.cd" "active",
          sampleRecord 2 6 300 "B2" "Bo" "b@x.cd" "active",
          sampleRecord 3 7 500 "C3" "Cy" "c@x.cd" "expired"].filter
          (rowMatch "" "")))[(2 - 1) * 2 + 0]? :=
  ⟨(listRecords_page_slice [sampleRecord 1 5 400 "A1" "Al" "a@x.cd" "active",
      sampleRecord 2 6 300 "B2" "Bo" "b@x.cd" "active",
      sampleRecord 3 7 500 "C3" "Cy" "c@x.cd" "expired"] 2 2 "" ""
      (by decide) (by decide)).1,
    (listRecords_page_slice [sampleRecord 1 5 400 "A1" "Al" "a@x.cd" "active",
      sampleRecord 2 6 300 "B2" "Bo" "b@x.cd" "active",
      sampleRecord 3 7 500 "C3" "Cy" "c@x.cd" "expired"] 2 2 "" ""
      (by decide) (by decide)).2 0 (by decide)⟩

/-- C3: a record whose `owner_email` contains the non-empty search term as a
substring is returned by the listing (whenever its page window covers the
matching set), independent of its plate number and owner name: the search
condition is a disjunction over `plate_number`, `owner_name` and
`owner_email`. -/
theorem search_matches_owner_email (db : List Record) (r : Record)
    (term : String) (limit : Nat) (hmem : r ∈ db) (_hterm : term ≠ "")
    (hsub : term.data <:+: r.owner_email.data)
    (hfit : (db.filter (rowMatch term "")).length ≤ limit) :
    r ∈ (listPlaques db 1 limit term "").plaques := by
  have hpred : rowMatch term "" r = true := by
    simp [rowMatch, searchMatch, likeContains_complete hsub]
  have ho : r ∈ orderByCreatedDesc (db.filter (rowMatch term "")) :=
    mem_orderByCreatedDesc.mpr (List.mem_filter.mpr ⟨hmem, hpred⟩)
  show r ∈ ((orderByCreatedDesc (db.filter (rowMatch term ""))).drop
      ((1 - 1) * limit)).take limit
  rw [show (1 - 1) * limit = 0 from by omega, List.drop_zero,
    List.take_of_length_le (by rw [length_orderByCreatedDesc]; exact hfit)]
  exact ho

theorem search_matches_owner_email_witness :
    sampleRecord 1 5 400 "AAA111" "John D" "john.smith@mail.cd" "active" ∈
      (listPlaques
        [sampleRecord 1 5 400 "AAA111" "John D" "john.smith@mail.cd" "active"]
        1 10 "smith" "").plaques :=
  search_matches_owner_email
    [sampleRecord 1 5 400 "AAA111" "John D" "john.smith@mail.cd" "active"]
    (sampleRecord 1 5 400 "AAA111" "John D" "john.smith@mail.cd" "active")
    "smith" 10 (by decide) (by decide) (by decide) (by decide)

/-- C4: an update whose new `plateNumber` is already used by a different
record fails with a Conflict error and leaves every record in the store
unchanged (the store is assumed to satisfy its plate-uniqueness
constraint). -/
theorem update_plate_conflict (db : List Record) (id : Nat) (req : UpdateReq)
    (r0 rx : Record)
    (h1 : req.plateNumber ≠ "") (h2 : req.ownerName ≠ "")
    (h3 : req.ownerEmail ≠ "") (hplates : PlatesUnique db)
    (hfind : db.find? (fun r => r.id == id) = some r0)
    (hmem : rx ∈ db) (hne : rx.id ≠ id)
    (hplate : rx.plate_number = req.plateNumber) :
    updatePlaque db id req = (some ApiError.conflict, db) := by
  have hr0mem : r0 ∈ db := List.mem_of_find?_eq_some hfind
  have hr0id : r0.id = id := by simpa using List.find?_some hfind
  have hner : rx ≠ r0 := fun e => hne (by rw [e]; exact hr0id)
  have hsym : Symmetric (fun a b : Record =>
      a.plate_number ≠ b.plate_number) :=
    fun a b hab e => hab e.symm
  have hpl0 : rx.plate_number ≠ r0.plate_number :=
    List.Pairwise.forall hsym hplates hmem hr0mem hner
  have hpl_ne : req.plateNumber ≠ r0.plate_number := hplate ▸ hpl0
  have hany : (db.any fun r =>
      r.plate_number == req.plateNumber && r.id != id) = true :=
    List.any_eq_true.mpr ⟨rx, hmem, by simp [hplate, hne]⟩
  have hcond : (req.plateNumber != r0.plate_number &&
      db.any fun r => r.plate_number == req.plateNumber && r.id != id) = true := by
    simp [hany, hpl_ne]
  unfold updatePlaque
  rw [if_neg (by simp [h1, h2, h3]), hfind]
  simp [hcond]

theorem update_plate_conflict_witness :
    updatePlaque
        [sampleRecord 1 5 400 "A1" "Al" "a@x.cd" "active",
          sampleRecord 2 6 300 "B2" "Bo" "b@x.cd" "active"]
        1 { plateNumber := "B2", ownerName := "Al", ownerEmail := "a@x.cd",
            ownerPhone := none, expiryDate := some 500 } =
      (some ApiError.conflict,
        [sampleRecord 1 5 400 "A1" "Al" "a@x.cd" "active",
          sampleRecord 2 6 300 "B2" "Bo" "b@x.cd" "active"]) :=
  update_plate_conflict
    [sampleRecord 1 5 400 "A1" "Al" "a@x.cd" "active",
      sampleRecord 2 6 300 "B2" "Bo" "b@x.cd" "active"]
    1 { plateNumber := "B2", ownerName := "Al", ownerEmail := "a@x.cd",
        ownerPhone := none, expiryDate := some 500 }
    (sampleRecord 1 5 400 "A1" "Al" "a@x.cd" "active")
    (sampleRecord 2 6 300 "B2" "Bo" "b@x.cd" "active")
    (by decide) (by decide) (by decide) (by decide) (by decide) (by decide)
    (by decide) (by decide)

end PlaqueSystem
